import Mathlib

/-!
Shallow embedding of the node-load-tester core (LoadTester.ts, InteractiveDisplay.ts,
types.ts) and verification of its specification claims.

JavaScript numbers are modelled as `JsNum`: exact rationals extended with the IEEE
special values `nan`, `inf` (Infinity) and `negInf` (-Infinity) that the code can
produce through `0/0`, `Math.min()` of an empty spread, and friends.  JavaScript
string-falsiness (`x || d` picking `d` on `undefined` or `""`) is modelled
explicitly.  Stateful methods are embedded as explicit state-passing functions.
-/

/-- Model of a JavaScript number: an exact rational or one of the IEEE special
values reachable in this program (`NaN`, `Infinity`, `-Infinity`). -/
inductive JsNum where
  | num (q : ℚ)
  | nan
  | inf
  | negInf
deriving DecidableEq

namespace JsNum

/-- JavaScript `+` on numbers (special values as in IEEE). -/
def add : JsNum → JsNum → JsNum
  | nan, _ => nan
  | _, nan => nan
  | inf, negInf => nan
  | negInf, inf => nan
  | inf, _ => inf
  | _, inf => inf
  | negInf, _ => negInf
  | _, negInf => negInf
  | num a, num b => num (a + b)

/-- JavaScript unary minus. -/
def neg : JsNum → JsNum
  | nan => nan
  | inf => negInf
  | negInf => inf
  | num a => num (-a)

/-- JavaScript `-` on numbers. -/
def sub (a b : JsNum) : JsNum := add a (neg b)

/-- JavaScript `/` on numbers: `0/0 = NaN`, `x/0 = ±Infinity` for `x ≠ 0`. -/
def div : JsNum → JsNum → JsNum
  | nan, _ => nan
  | _, nan => nan
  | inf, inf => nan
  | inf, negInf => nan
  | negInf, inf => nan
  | negInf, negInf => nan
  | inf, num b => if b < 0 then negInf else inf
  | negInf, num b => if b < 0 then inf else negInf
  | num _, inf => num 0
  | num _, negInf => num 0
  | num a, num b =>
      if b = 0 then (if a = 0 then nan else if a < 0 then negInf else inf)
      else num (a / b)

/-- JavaScript `Math.min` of two numbers (`NaN` is contagious). -/
def min : JsNum → JsNum → JsNum
  | nan, _ => nan
  | _, nan => nan
  | inf, b => b
  | a, inf => a
  | negInf, _ => negInf
  | _, negInf => negInf
  | num a, num b => num (Min.min a b)

/-- JavaScript `Math.max` of two numbers (`NaN` is contagious). -/
def max : JsNum → JsNum → JsNum
  | nan, _ => nan
  | _, nan => nan
  | negInf, b => b
  | a, negInf => a
  | inf, _ => inf
  | _, inf => inf
  | num a, num b => num (Max.max a b)

/-- JavaScript `<` (false whenever `NaN` is involved). -/
def lt : JsNum → JsNum → Bool
  | nan, _ => false
  | _, nan => false
  | inf, _ => false
  | _, inf => true
  | negInf, negInf => false
  | negInf, _ => true
  | _, negInf => false
  | num a, num b => decide (a < b)

/-- JavaScript `<=` (false whenever `NaN` is involved). -/
def le : JsNum → JsNum → Bool
  | nan, _ => false
  | _, nan => false
  | negInf, _ => true
  | _, inf => true
  | inf, _ => false
  | _, negInf => false
  | num a, num b => decide (a ≤ b)

end JsNum

/-- JavaScript truthiness of an optional string (`undefined` and `""` are falsy). -/
def strTruthy : Option String → Bool
  | none => false
  | some s => !s.isEmpty

/-- JavaScript `a || b` for an optional string `a` and default `b`. -/
def jsOr (a : Option String) (b : String) : String :=
  match a with
  | none => b
  | some s => if s.isEmpty then b else s

/-- JavaScript template-literal rendering of a possibly-undefined string. -/
def jsTemplate : Option String → String
  | none => "undefined"
  | some s => s

/-- A JavaScript string-keyed record of header values, in insertion order. -/
abbrev Headers := List (String × String)

/-- Read a header (`headers[k]`). -/
def hget (h : Headers) (k : String) : Option String :=
  (h.find? (fun p => p.1 = k)).map (fun p => p.2)

/-- Write a header (`headers[k] = v`): overwrite in place if present, append otherwise. -/
def hset (h : Headers) (k v : String) : Headers :=
  if h.any (fun p => p.1 = k) then h.map (fun p => if p.1 = k then (k, v) else p)
  else h ++ [(k, v)]

/-- The HTTP methods admitted by `types.ts`. -/
inductive HttpMethod where
  | GET | POST | PUT | PATCH | DELETE | HEAD | OPTIONS
deriving DecidableEq

/-- A request body: either a string or a structured (object) payload. -/
inductive JsBody where
  | str (s : String)
  | obj (fields : List (String × String))
deriving DecidableEq

/-- JavaScript truthiness of an optional body (`undefined` and `""` are falsy;
every object, even `{}`, is truthy). -/
def bodyTruthy : Option JsBody → Bool
  | none => false
  | some (.str s) => !s.isEmpty
  | some (.obj _) => true

/-- The four auth variants of `types.ts`. -/
inductive AuthType where
  | basic | bearer | apikey | custom
deriving DecidableEq

/-- The `auth` object of `EndpointTestConfig` in `types.ts`. -/
structure AuthConfig where
  type : AuthType
  username : Option String := none
  password : Option String := none
  token : Option String := none
  apiKey : Option String := none
  apiKeyHeader : Option String := none
  customHeader : Option String := none
  customValue : Option String := none
deriving DecidableEq

/-- `EndpointTestConfig` from `types.ts`. -/
structure EndpointTestConfig where
  name : Option String := none
  endpoint : String
  concurrentUsers : Nat
  frequencyMs : Nat
  method : Option HttpMethod := none
  headers : Headers := []
  body : Option JsBody := none
  auth : Option AuthConfig := none
deriving DecidableEq

/-- `RequestResult` from `types.ts`.  Timestamps and response times are wall-clock
milliseconds, kept exact as rationals. -/
structure RequestResult where
  timestamp : ℚ
  responseTime : ℚ
  statusCode : Nat
  success : Bool
  error : Option String := none
  endpointName : Option String := none
  endpoint : String
deriving DecidableEq

/-- `LoadTester.supportsRequestBody`. -/
def supportsRequestBody (method : HttpMethod) : Bool :=
  [HttpMethod.POST, HttpMethod.PUT, HttpMethod.PATCH].contains method

/-- The axios request configuration assembled by `makeRequest`. -/
structure AxiosRequestConfig where
  method : HttpMethod
  url : String
  timeout : Nat
  headers : Headers
  data : Option JsBody := none
  auth : Option (String × String) := none
deriving DecidableEq

/-- `LoadTester.applyAuthentication`: mutates the header record according to the
auth variant and installs the final headers into the axios config. -/
def applyAuthentication (axiosConfig : AxiosRequestConfig) (headers : Headers)
    (endpointConfig : EndpointTestConfig) : AxiosRequestConfig :=
  match endpointConfig.auth with
  | none => { axiosConfig with headers := headers }
  | some a =>
    match a.type with
    | .basic =>
        if strTruthy a.username && strTruthy a.password then
          { axiosConfig with
            auth := some (a.username.getD "", a.password.getD ""), headers := headers }
        else { axiosConfig with headers := headers }
    | .bearer =>
        if strTruthy a.token then
          { axiosConfig with
            headers := hset headers "Authorization" ("Bearer " ++ a.token.getD "") }
        else { axiosConfig with headers := headers }
    | .apikey =>
        if strTruthy a.apiKey then
          let headerName := jsOr a.apiKeyHeader "X-API-Key"
          { axiosConfig with headers := hset headers headerName (a.apiKey.getD "") }
        else { axiosConfig with headers := headers }
    | .custom =>
        if strTruthy a.customHeader && strTruthy a.customValue then
          { axiosConfig with
            headers := hset headers (a.customHeader.getD "") (a.customValue.getD "") }
        else { axiosConfig with headers := headers }

/-- The endpoint display name: `endpointConfig.name || "Endpoint-<index+1>"`. -/
def endpointNameOf (endpointConfig : EndpointTestConfig) (endpointIndex : Nat) : String :=
  jsOr endpointConfig.name ("Endpoint-" ++ toString (endpointIndex + 1))

/-- The User-Agent string built by `makeRequest`. -/
def mkUserAgent (endpointName : String) (userId : Nat) : String :=
  "LoadTester-" ++ endpointName ++ "-User-" ++ toString userId

/-- The request-construction half of `LoadTester.makeRequest`: base headers,
method/url/timeout, conditional body attachment with the JSON content-type
default, and authentication. -/
def buildRequestConfig (endpointConfig : EndpointTestConfig)
    (endpointIndex userId : Nat) : AxiosRequestConfig :=
  let endpointName := endpointNameOf endpointConfig endpointIndex
  let headers := endpointConfig.headers.foldl (fun h p => hset h p.1 p.2)
    [("User-Agent", mkUserAgent endpointName userId)]
  let axiosConfig : AxiosRequestConfig :=
    { method := endpointConfig.method.getD .GET
      url := endpointConfig.endpoint
      timeout := 30000
      headers := headers }
  let step :=
    if bodyTruthy endpointConfig.body
        && supportsRequestBody (endpointConfig.method.getD .GET) then
      match endpointConfig.body with
      | some (JsBody.str s) => ({ axiosConfig with data := some (JsBody.str s) }, headers)
      | some (JsBody.obj o) =>
          let headers2 :=
            if !strTruthy (hget headers "Content-Type")
                && !strTruthy (hget headers "content-type") then
              hset headers "Content-Type" "application/json"
            else headers
          ({ axiosConfig with data := some (JsBody.obj o) }, headers2)
      | none => (axiosConfig, headers)
    else (axiosConfig, headers)
  applyAuthentication step.1 step.2 endpointConfig

/-- What the network did for one attempt: an HTTP response with some status, or a
transport-level failure (timeout, connection refused, ...) with its message. -/
inductive TransportOutcome where
  | response (status : Nat)
  | netError (message : String)
deriving DecidableEq

/-- An axios rejection: its message, and the response status when a response exists. -/
structure AxiosError where
  message : String
  responseStatus : Option Nat
deriving DecidableEq

/-- The axios call in `makeRequest`.  No `validateStatus` is configured, so axios
applies its default (accept only `200 ≤ status < 300`): a non-2xx response makes
the promise reject with an error that carries the response. -/
def axiosSend (outcome : TransportOutcome) : Except AxiosError Nat :=
  match outcome with
  | .response status =>
      if 200 ≤ status ∧ status < 300 then .ok status
      else .error ⟨"Request failed with status code " ++ toString status, some status⟩
  | .netError message => .error ⟨message, none⟩

/-- `LoadTester.makeRequest`: runs one attempt and appends exactly one
`RequestResult` to the results store; the `try`/`catch` is embedded as a match on
the axios outcome, so both paths are total. -/
def makeRequest (endpointConfig : EndpointTestConfig) (endpointIndex userId : Nat)
    (startTime responseTime : ℚ) (outcome : TransportOutcome)
    (results : List RequestResult) : List RequestResult :=
  let endpointName := endpointNameOf endpointConfig endpointIndex
  match axiosSend outcome with
  | .ok status =>
      results ++ [{ timestamp := startTime
                    responseTime := responseTime
                    statusCode := status
                    success := true
                    error := none
                    endpointName := some endpointName
                    endpoint := endpointConfig.endpoint }]
  | .error e =>
      results ++ [{ timestamp := startTime
                    responseTime := responseTime
                    statusCode := e.responseStatus.getD 0
                    success := false
                    error := some e.message
                    endpointName := some endpointName
                    endpoint := endpointConfig.endpoint }]

/-- JavaScript `arr.slice(-n)`: the last `n` elements (all of them if fewer). -/
def jsSliceLast {α : Type} (n : Nat) (l : List α) : List α :=
  l.drop (l.length - n)

/-- JavaScript `arr.filter((e, i, arr) => arr.indexOf(e) === i)`: keep the first
occurrence of each value, in order. -/
def jsDedup (arr : List String) : List String :=
  (arr.enum.filter (fun p => arr.indexOf p.2 == p.1)).map (fun p => p.2)

/-- `Math.min(...l)` over a nonempty rational spread. -/
def qMinList (l : List ℚ) : ℚ :=
  match l with
  | [] => 0
  | x :: xs => xs.foldl Min.min x

/-- `Math.max(...l)` over a nonempty rational spread. -/
def qMaxList (l : List ℚ) : ℚ :=
  match l with
  | [] => 0
  | x :: xs => xs.foldl Max.max x

/-- The overall statistics record returned by `LoadTester.calculateStats`. -/
structure LoadTestStatsR where
  totalRequests : Nat
  successfulRequests : Nat
  failedRequests : Nat
  averageResponseTime : JsNum
  minResponseTime : JsNum
  maxResponseTime : JsNum
  requestsPerSecond : JsNum
deriving DecidableEq

/-- `LoadTester.calculateStats`, with the JavaScript numeric tower made explicit:
`reduce((a,b) => a+b, 0) / length` is `0/0 = NaN` on an empty store, and the
empty `Math.min`/`Math.max` spreads give `Infinity`/`-Infinity`. -/
def calculateStats (results : List RequestResult) : LoadTestStatsR :=
  let totalRequests := results.length
  let successfulRequests := (results.filter (fun r => r.success)).length
  let failedRequests := totalRequests - successfulRequests
  let responseTimes := results.map (fun r => JsNum.num r.responseTime)
  let averageResponseTime :=
    JsNum.div (responseTimes.foldl JsNum.add (JsNum.num 0))
      (JsNum.num (responseTimes.length : ℚ))
  let minResponseTime := responseTimes.foldl JsNum.min JsNum.inf
  let maxResponseTime := responseTimes.foldl JsNum.max JsNum.negInf
  let timestamps := results.map (fun r => JsNum.num r.timestamp)
  let firstRequest := timestamps.foldl JsNum.min JsNum.inf
  let lastRequest := timestamps.foldl JsNum.max JsNum.negInf
  let timeElapsedSeconds := JsNum.div (JsNum.sub lastRequest firstRequest) (JsNum.num 1000)
  let requestsPerSecond :=
    if JsNum.lt (JsNum.num 0) timeElapsedSeconds then
      JsNum.div (JsNum.num (totalRequests : ℚ)) timeElapsedSeconds
    else JsNum.num 0
  { totalRequests := totalRequests
    successfulRequests := successfulRequests
    failedRequests := failedRequests
    averageResponseTime := averageResponseTime
    minResponseTime := minResponseTime
    maxResponseTime := maxResponseTime
    requestsPerSecond := requestsPerSecond }

/-- The recent-error lines of `LoadTester.displayFinalStats`: failed results,
last five, rendered as template literals, de-duplicated keeping first occurrences. -/
def recentErrorsOf (results : List RequestResult) : List String :=
  let failed := results.filter (fun r => !r.success)
  jsDedup ((jsSliceLast 5 failed).map
    (fun r => jsTemplate r.endpointName ++ ": " ++ jsTemplate r.error))

/-- Splitting a character list at every occurrence of a separator, the way
JavaScript `String.prototype.split` treats a one-character separator. -/
def splitCharList (sep : Char) : List Char → List (List Char)
  | [] => [[]]
  | c :: cs =>
      if c = sep then [] :: splitCharList sep cs
      else
        match splitCharList sep cs with
        | [] => [[c]]
        | piece :: rest => (c :: piece) :: rest

/-- JavaScript `s.split(sep)` for a one-character separator. -/
def jsSplit (sep : Char) (s : String) : List String :=
  (splitCharList sep s.data).map String.mk

/-- The grouping key of `LoadTester.calculateEndpointStats`:
`(result.endpointName || "Unknown") + "|" + result.endpoint`. -/
def resultKey (r : RequestResult) : String :=
  jsOr r.endpointName "Unknown" ++ "|" ++ r.endpoint

/-- One step of filling the endpoint groups `Map`: push onto the existing entry
for the key, or append a fresh entry (JavaScript `Map` preserves insertion order). -/
def insertGroup (acc : List (String × List RequestResult)) (r : RequestResult) :
    List (String × List RequestResult) :=
  let key := resultKey r
  if acc.any (fun p => p.1 = key) then
    acc.map (fun p => if p.1 = key then (p.1, p.2 ++ [r]) else p)
  else acc ++ [(key, [r])]

/-- The endpoint-grouping pass of `LoadTester.calculateEndpointStats`. -/
def groupByEndpoint (results : List RequestResult) : List (String × List RequestResult) :=
  results.foldl insertGroup []

/-- The per-endpoint statistics record (`EndpointStats` in `types.ts`). -/
structure EndpointStats where
  endpointName : String
  endpoint : String
  totalRequests : Nat
  successfulRequests : Nat
  failedRequests : Nat
  averageResponseTime : JsNum
  minResponseTime : JsNum
  maxResponseTime : JsNum
  requestsPerSecond : JsNum
deriving DecidableEq

/-- The per-group body of `LoadTester.calculateEndpointStats`: recover name and
URL by destructuring `key.split('|')`, then compute the same statistics as
`calculateStats` over the group members. -/
def endpointStatsOfGroup (key : String) (results : List RequestResult) : EndpointStats :=
  let parts := jsSplit '|' key
  let endpointName := (parts.get? 0).getD "undefined"
  let endpoint := (parts.get? 1).getD "undefined"
  let totalRequests := results.length
  let successfulRequests := (results.filter (fun r => r.success)).length
  let failedRequests := totalRequests - successfulRequests
  let responseTimes := results.map (fun r => JsNum.num r.responseTime)
  let averageResponseTime :=
    JsNum.div (responseTimes.foldl JsNum.add (JsNum.num 0))
      (JsNum.num (responseTimes.length : ℚ))
  let minResponseTime := responseTimes.foldl JsNum.min JsNum.inf
  let maxResponseTime := responseTimes.foldl JsNum.max JsNum.negInf
  let timestamps := results.map (fun r => JsNum.num r.timestamp)
  let firstRequest := timestamps.foldl JsNum.min JsNum.inf
  let lastRequest := timestamps.foldl JsNum.max JsNum.negInf
  let timeElapsedSeconds := JsNum.div (JsNum.sub lastRequest firstRequest) (JsNum.num 1000)
  let requestsPerSecond :=
    if JsNum.lt (JsNum.num 0) timeElapsedSeconds then
      JsNum.div (JsNum.num (totalRequests : ℚ)) timeElapsedSeconds
    else JsNum.num 0
  { endpointName := endpointName
    endpoint := endpoint
    totalRequests := totalRequests
    successfulRequests := successfulRequests
    failedRequests := failedRequests
    averageResponseTime := averageResponseTime
    minResponseTime := minResponseTime
    maxResponseTime := maxResponseTime
    requestsPerSecond := requestsPerSecond }

/-- `LoadTester.calculateEndpointStats`. -/
def calculateEndpointStats (results : List RequestResult) : List EndpointStats :=
  (groupByEndpoint results).map (fun p => endpointStatsOfGroup p.1 p.2)

/-- What `LoadTester.displayFinalStats` emits: either the "No requests were made"
signal, or the overall statistics, the per-endpoint section (printed only when
more than one endpoint group exists) and the recent-error lines. -/
inductive FinalReport where
  | noRequests
  | report (overall : LoadTestStatsR) (perEndpoint : List EndpointStats)
      (recentErrors : List String)
deriving DecidableEq

/-- `LoadTester.displayFinalStats`: the empty store short-circuits before any
statistic is computed. -/
def displayFinalStats (results : List RequestResult) : FinalReport :=
  if results.length = 0 then FinalReport.noRequests
  else
    FinalReport.report (calculateStats results)
      (if 1 < (calculateEndpointStats results).length then calculateEndpointStats results
       else [])
      (recentErrorsOf results)

/-- The shutdown side effects of `LoadTester.stop` (display teardown, timer
cancellation, the stopped message, the final statistics output). -/
inductive ShutdownEvent where
  | displayTornDown
  | intervalsCleared (count : Nat)
  | stoppedMessage
  | finalStats (report : FinalReport)
deriving DecidableEq

/-- The mutable state of a `LoadTester` (plus an event log recording the
observable shutdown side effects). -/
structure TesterState where
  isRunning : Bool
  intervals : List Nat
  displayActive : Bool
  results : List RequestResult
  output : List ShutdownEvent
deriving DecidableEq

/-- `LoadTester.stop`: a no-op unless running; otherwise clears the running flag,
stops the interactive display (whose own `stop` tears the multibar down only if
it exists), clears every timer, prints the stopped message and the final stats. -/
def LoadTester.stop (s : TesterState) : TesterState :=
  if !s.isRunning then s
  else
    let afterDisplay :=
      { s with
        isRunning := false
        displayActive := false
        output := s.output ++ (if s.displayActive then [ShutdownEvent.displayTornDown] else []) }
    let afterIntervals :=
      { afterDisplay with
        intervals := []
        output := afterDisplay.output
          ++ [ShutdownEvent.intervalsCleared afterDisplay.intervals.length] }
    { afterIntervals with
      output := afterIntervals.output
        ++ [ShutdownEvent.stoppedMessage,
            ShutdownEvent.finalStats (displayFinalStats afterIntervals.results)] }

/-- `InteractiveDisplay.generateLatencyChart`: note that `minLatency`,
`maxLatency` and the zero-range test are computed over the whole input (up to 20
latencies), while only the last 8 values are drawn. -/
def generateLatencyChart (latencies : List ℚ) : String :=
  if latencies.length = 0 then "░░░░░░░░"
  else
    let maxLatency := qMaxList latencies
    let minLatency := qMinList latencies
    let range := maxLatency - minLatency
    if range = 0 then "▄▄▄▄▄▄▄▄"
    else
      let chart := (jsSliceLast 8 latencies).map (fun latency =>
        let normalized := (latency - minLatency) / range
        if normalized < 0.2 then "▁"
        else if normalized < 0.4 then "▂"
        else if normalized < 0.6 then "▄"
        else if normalized < 0.8 then "▆"
        else "█")
      String.join (List.replicate (8 - chart.length) "░" ++ chart)

/-- The chart input of `InteractiveDisplay.calculateEndpointStats`: the latencies
of the endpoint's most recent 20 results. -/
def recentLatenciesOf (endpointResults : List RequestResult) : List ℚ :=
  (jsSliceLast 20 endpointResults).map (fun r => r.responseTime)

/-- The latency chart the interactive display shows for one endpoint group. -/
def latencyChartOf (endpointResults : List RequestResult) : String :=
  generateLatencyChart (recentLatenciesOf endpointResults)

/-- The sparkline reference algorithm exactly as the spec words it: normalize
each of the up-to-8 most recent latencies against the minimum and maximum *of
that 8-value window*, render a zero-range window as flat mid-height glyphs, pad
on the left, and render empty input as all empty-bucket glyphs. -/
def specSparkline (latencies : List ℚ) : String :=
  if latencies.length = 0 then String.join (List.replicate 8 "░")
  else
    let window := jsSliceLast 8 latencies
    let mn := qMinList window
    let mx := qMaxList window
    if mx - mn = 0 then String.join (List.replicate 8 "▄")
    else
      let glyphs := window.map (fun latency =>
        let normalized := (latency - mn) / (mx - mn)
        if normalized < 0.2 then "▁"
        else if normalized < 0.4 then "▂"
        else if normalized < 0.6 then "▄"
        else if normalized < 0.8 then "▆"
        else "█")
      String.join (List.replicate (8 - glyphs.length) "░" ++ glyphs)

/-- The sparkline reference algorithm amended to match the code: the minimum,
maximum and zero-range test are taken over the *whole* up-to-20-value input
rather than over the 8-value window, and an all-equal input renders as eight
flat mid-height glyphs regardless of how few samples exist. -/
def amendedSparkline (latencies : List ℚ) : String :=
  if latencies.length = 0 then String.join (List.replicate 8 "░")
  else
    let mn := qMinList latencies
    let mx := qMaxList latencies
    if mx - mn = 0 then String.join (List.replicate 8 "▄")
    else
      let glyphs := (jsSliceLast 8 latencies).map (fun latency =>
        let normalized := (latency - mn) / (mx - mn)
        if normalized < 0.2 then "▁"
        else if normalized < 0.4 then "▂"
        else if normalized < 0.6 then "▄"
        else if normalized < 0.8 then "▆"
        else "█")
      String.join (List.replicate (8 - glyphs.length) "░" ++ glyphs)

/-- A concrete endpoint configuration used by witnesses and counterexamples. -/
def sampleConfig : EndpointTestConfig :=
  { name := some "Checkout"
    endpoint := "https://example.com/api"
    concurrentUsers := 1
    frequencyMs := 1000 }

/-- `applyAuthentication` never touches the `data` field of the axios config. -/
theorem applyAuthentication_data (axiosConfig : AxiosRequestConfig) (headers : Headers)
    (endpointConfig : EndpointTestConfig) :
    (applyAuthentication axiosConfig headers endpointConfig).data = axiosConfig.data := by
  unfold applyAuthentication
  rcases endpointConfig.auth with _ | ⟨ty, u, pw, t, k, kh, ch, cv⟩
  · rfl
  · cases ty <;> dsimp only <;> split <;> rfl

/-- Claim C1 (counterexample): an HTTP 500 response is recorded by `makeRequest`
with `success = false` and an error message, not with `success = true` and no
error as the claim states, because axios's default `validateStatus` rejects
non-2xx responses and the attempt lands in the `catch` branch. -/
theorem c1_counterexample :
    (makeRequest sampleConfig 0 0 0 5 (TransportOutcome.response 500) []).map
        (fun r => (r.success, r.statusCode, r.error))
      = [(false, 500, some "Request failed with status code 500")] := by
  decide

/-- Claim C1 (amended): for every attempt in which an HTTP response was received,
`makeRequest` appends a result whose `statusCode` is the response status, whose
`success` is true exactly when the status is 2xx (axios's default validation),
and whose `error` is absent exactly in the 2xx case. -/
theorem c1_response_classification (endpointConfig : EndpointTestConfig)
    (endpointIndex userId : Nat) (startTime responseTime : ℚ) (status : Nat)
    (results : List RequestResult) :
    ∃ r, makeRequest endpointConfig endpointIndex userId startTime responseTime
          (TransportOutcome.response status) results = results ++ [r]
      ∧ r.statusCode = status
      ∧ r.success = decide (200 ≤ status ∧ status < 300)
      ∧ r.error.isNone = decide (200 ≤ status ∧ status < 300) := by
  by_cases h : 200 ≤ status ∧ status < 300
  · refine ⟨⟨startTime, responseTime, status, true, none,
        some (endpointNameOf endpointConfig endpointIndex), endpointConfig.endpoint⟩,
      ?_, rfl, by simp [h], by simp [h]⟩
    simp [makeRequest, axiosSend, h]
  · refine ⟨⟨startTime, responseTime, status, false,
        some ("Request failed with status code " ++ toString status),
        some (endpointNameOf endpointConfig endpointIndex), endpointConfig.endpoint⟩,
      ?_, rfl, by simp [h], by simp [h]⟩
    simp [makeRequest, axiosSend, h]

/-- Claim C5: every invocation of `makeRequest` appends exactly one result to the
store (the function is total, so no exception escapes on any path), and a
transport failure is captured into the record's `success = false` and `error`
fields rather than raised. -/
theorem c5_execute_appends_once (endpointConfig : EndpointTestConfig)
    (endpointIndex userId : Nat) (startTime responseTime : ℚ)
    (outcome : TransportOutcome) (results : List RequestResult) :
    ∃ r, makeRequest endpointConfig endpointIndex userId startTime responseTime
          outcome results = results ++ [r]
      ∧ (∀ message, outcome = TransportOutcome.netError message →
          r.success = false ∧ r.error = some message) := by
  cases outcome with
  | response status =>
      by_cases h : 200 ≤ status ∧ status < 300
      · refine ⟨⟨startTime, responseTime, status, true, none,
            some (endpointNameOf endpointConfig endpointIndex), endpointConfig.endpoint⟩,
          ?_, fun m hm => absurd hm (by simp)⟩
        simp [makeRequest, axiosSend, h]
      · refine ⟨⟨startTime, responseTime, status, false,
            some ("Request failed with status code " ++ toString status),
            some (endpointNameOf endpointConfig endpointIndex), endpointConfig.endpoint⟩,
          ?_, fun m hm => absurd hm (by simp)⟩
        simp [makeRequest, axiosSend, h]
  | netError message =>
      refine ⟨_, rfl, ?_⟩
      intro m hm
      injection hm with h2
      subst h2
      exact ⟨rfl, rfl⟩

/-- Witness for C5 at a concrete timed-out request. -/
theorem c5_execute_appends_once_witness :
    ∃ r, makeRequest sampleConfig 0 1 0 7
          (TransportOutcome.netError "timeout of 30000ms exceeded") [] = [] ++ [r]
      ∧ r.success = false ∧ r.error = some "timeout of 30000ms exceeded" := by
  obtain ⟨r, h1, h2⟩ := c5_execute_appends_once sampleConfig 0 1 0 7
    (TransportOutcome.netError "timeout of 30000ms exceeded") []
  exact ⟨r, h1, h2 "timeout of 30000ms exceeded" rfl⟩

/-- Claim C6: `stop` is idempotent: it is a no-op when the tester is not running,
and a second immediate invocation changes nothing — in particular the event log
(display teardown, timer cancellation, final statistics) grows only once. -/
theorem c6_stop_idempotent (s : TesterState) :
    (s.isRunning = false → LoadTester.stop s = s)
  ∧ LoadTester.stop (LoadTester.stop s) = LoadTester.stop s := by
  constructor
  · intro h
    simp [LoadTester.stop, h]
  · by_cases h : s.isRunning
    · simp [LoadTester.stop, h]
    · simp [LoadTester.stop, h]

/-- Witness for C6 at a concrete non-running state. -/
theorem c6_stop_idempotent_witness :
    (TesterState.mk false [1, 2] true [] []).isRunning = false
  ∧ LoadTester.stop ⟨false, [1, 2], true, [], []⟩ = ⟨false, [1, 2], true, [], []⟩
  ∧ LoadTester.stop (LoadTester.stop ⟨false, [1, 2], true, [], []⟩)
      = LoadTester.stop ⟨false, [1, 2], true, [], []⟩ :=
  ⟨rfl, (c6_stop_idempotent _).1 rfl, (c6_stop_idempotent _).2⟩

/-- Claim C10: a present-but-empty string body on a POST/PUT/PATCH endpoint is
treated exactly as an absent body — no `data` is attached and the request
configuration (headers included, so no default `Content-Type`) is identical to
the one built with no body at all. -/
theorem c10_empty_body_treated_absent (endpointConfig : EndpointTestConfig)
    (endpointIndex userId : Nat) (m : HttpMethod)
    (hm : endpointConfig.method = some m)
    (hmem : m = HttpMethod.POST ∨ m = HttpMethod.PUT ∨ m = HttpMethod.PATCH)
    (hb : endpointConfig.body = some (JsBody.str "")) :
    (buildRequestConfig endpointConfig endpointIndex userId).data = none
  ∧ buildRequestConfig endpointConfig endpointIndex userId
      = buildRequestConfig { endpointConfig with body := none } endpointIndex userId := by
  obtain ⟨nm, ep, cu, fq, me, hd, bo, au⟩ := endpointConfig
  simp only at hb
  subst hb
  constructor
  · simp only [buildRequestConfig]
    rw [applyAuthentication_data]
    rfl
  · rfl

/-- A concrete POST endpoint configuration carrying an empty string body. -/
def emptyBodyConfig : EndpointTestConfig :=
  { sampleConfig with method := some HttpMethod.POST, body := some (JsBody.str "") }

/-- Witness for C10 at a concrete POST endpoint with an empty string body. -/
theorem c10_empty_body_treated_absent_witness :
    emptyBodyConfig.method = some HttpMethod.POST
  ∧ emptyBodyConfig.body = some (JsBody.str "")
  ∧ (buildRequestConfig emptyBodyConfig 0 0).data = none :=
  ⟨rfl, rfl,
    (c10_empty_body_treated_absent emptyBodyConfig 0 0 HttpMethod.POST rfl (Or.inl rfl) rfl).1⟩

/-- Claim C3 (counterexample): `calculateStats` applied to an empty result list
does not report all-zero statistics: the average is `0/0 = NaN` and the empty
min/max spreads give `Infinity` and `-Infinity`. -/
theorem c3_counterexample :
    (calculateStats []).averageResponseTime = JsNum.nan
  ∧ (calculateStats []).minResponseTime = JsNum.inf
  ∧ (calculateStats []).maxResponseTime = JsNum.negInf
  ∧ JsNum.nan ≠ JsNum.num 0 := by
  decide

/-- Claim C3 (amended): the final-statistics path never evaluates the overall
statistics on an empty store — it signals "No requests were made" instead; on an
empty list `calculateStats` itself reports `totalRequests = 0` and
`requestsPerSecond = 0` (that division is guarded), but its average is `NaN` and
its min/max are infinite. -/
theorem c3_empty_results_guarded :
    displayFinalStats [] = FinalReport.noRequests
  ∧ (calculateStats []).totalRequests = 0
  ∧ (calculateStats []).requestsPerSecond = JsNum.num 0
  ∧ (calculateStats []).averageResponseTime = JsNum.nan
  ∧ (calculateStats []).minResponseTime = JsNum.inf
  ∧ (calculateStats []).maxResponseTime = JsNum.negInf := by
  decide

/-- Writing a header and reading it back yields the written value. -/
theorem hget_hset_self (h : Headers) (k v : String) : hget (hset h k v) k = some v := by
  induction h with
  | nil => simp [hset, hget]
  | cons x t ih =>
      by_cases hx : x.1 = k
      · simp [hset, hget, hx]
      · by_cases ht : t.any (fun p => p.1 = k)
        · simp only [hset, ht, if_pos] at ih
        -- ih is about the overwrite branch on t
          simp [hset, hget, hx, ht] at ih ⊢
          exact ih
        · simp only [hset, ht, if_neg, Bool.false_eq_true, not_false_eq_true] at ih
          simp [hset, hget, hx, ht] at ih ⊢
          exact ih

/-- Claim C8 (amended): a bearer auth with a nonempty token sets the
`Authorization` header to exactly `"Bearer " ++ token`, and an apikey auth with a
nonempty key and no `apiKeyHeader` places the key under `X-API-Key`.  (The
nonemptiness restriction is forced: the code tests the fields for JavaScript
truthiness, so an empty-string token or key is skipped.) -/
theorem c8_auth_headers (axiosConfig : AxiosRequestConfig) (headers : Headers)
    (endpointConfig : EndpointTestConfig) (a : AuthConfig)
    (ha : endpointConfig.auth = some a) :
    (a.type = AuthType.bearer → ∀ t, a.token = some t → t ≠ "" →
      hget (applyAuthentication axiosConfig headers endpointConfig).headers "Authorization"
        = some ("Bearer " ++ t))
  ∧ (a.type = AuthType.apikey → ∀ k, a.apiKey = some k → k ≠ "" → a.apiKeyHeader = none →
      hget (applyAuthentication axiosConfig headers endpointConfig).headers "X-API-Key"
        = some k) := by
  constructor
  · intro hty t htok hne
    have hemp : t.isEmpty = false := by
      cases h : t.isEmpty
      · rfl
      · exact absurd ((String.isEmpty_iff t).mp h) hne
    simp [applyAuthentication, ha, hty, htok, strTruthy, hemp, hget_hset_self]
  · intro hty k hkey hne hhdr
    have hemp : k.isEmpty = false := by
      cases h : k.isEmpty
      · rfl
      · exact absurd ((String.isEmpty_iff k).mp h) hne
    simp [applyAuthentication, ha, hty, hkey, hhdr, strTruthy, jsOr, hemp, hget_hset_self]

/-- The bearer auth object used by the C8 witness. -/
def bearerAuth : AuthConfig := { type := AuthType.bearer, token := some "abc" }

/-- The apikey auth object used by the C8 witness. -/
def apikeyAuth : AuthConfig := { type := AuthType.apikey, apiKey := some "k1" }

/-- A bare axios configuration used by the C8 theorems. -/
def baseAxios : AxiosRequestConfig :=
  { method := HttpMethod.GET, url := "https://example.com/api", timeout := 30000, headers := [] }

/-- Witness for C8: token `"abc"` yields exactly `Bearer abc`; an apikey with no
`apiKeyHeader` lands under `X-API-Key`. -/
theorem c8_auth_headers_witness :
    hget (applyAuthentication baseAxios []
        { sampleConfig with auth := some bearerAuth }).headers "Authorization"
      = some ("Bearer " ++ "abc")
  ∧ hget (applyAuthentication baseAxios []
        { sampleConfig with auth := some apikeyAuth }).headers "X-API-Key"
      = some "k1" :=
  ⟨(c8_auth_headers baseAxios [] { sampleConfig with auth := some bearerAuth }
      bearerAuth rfl).1 rfl "abc" rfl (by decide),
   (c8_auth_headers baseAxios [] { sampleConfig with auth := some apikeyAuth }
      apikeyAuth rfl).2 rfl "k1" rfl (by decide) rfl⟩

/-- Claim C8 (counterexample): a bearer auth whose token is the empty string is a
"configuration of type bearer with token t" for `t = ""`, yet no `Authorization`
header is set at all, because the code tests the token for truthiness. -/
theorem c8_counterexample :
    ({ type := AuthType.bearer, token := some "" } : AuthConfig).token = some ""
  ∧ hget (applyAuthentication baseAxios []
        { sampleConfig with auth := some { type := AuthType.bearer, token := some "" } }).headers
      "Authorization" = none := by
  exact ⟨rfl, by decide⟩

/-- The second component of an `enumFrom` entry is a member of the list. -/
theorem enumFrom_snd_mem {α : Type} :
    ∀ (l : List α) (n : Nat) (p : Nat × α), p ∈ l.enumFrom n → p.2 ∈ l := by
  intro l
  induction l with
  | nil => intro n p h; simp at h
  | cons x t ih =>
      intro n p h
      rw [List.enumFrom_cons] at h
      rcases List.mem_cons.mp h with h1 | h1
      · subst h1; exact List.mem_cons_self x t
      · exact List.mem_cons_of_mem x (ih (n + 1) p h1)

/-- Every element kept by the JavaScript indexOf-based dedup came from the input. -/
theorem jsDedup_subset (arr : List String) : ∀ e ∈ jsDedup arr, e ∈ arr := by
  intro e he
  simp only [jsDedup, List.mem_map] at he
  obtain ⟨p, hp, rfl⟩ := he
  exact enumFrom_snd_mem arr 0 p (List.mem_filter.mp hp).1

/-- The JavaScript indexOf-based dedup never lengthens its input. -/
theorem jsDedup_length_le (arr : List String) : (jsDedup arr).length ≤ arr.length := by
  simp only [jsDedup, List.length_map]
  calc (List.filter _ arr.enum).length
      ≤ arr.enum.length := List.length_filter_le _ _
    _ = arr.length := List.enum_length

/-- The JavaScript indexOf-based dedup has no duplicates: every kept entry sits
at the first index at which its value occurs. -/
theorem jsDedup_nodup (arr : List String) : (jsDedup arr).Nodup := by
  apply List.Nodup.map_on
  · intro x hx y hy hxy
    have hx3 : arr.indexOf x.2 = x.1 := by
      simpa using (List.mem_filter.mp hx).2
    have hy3 : arr.indexOf y.2 = y.1 := by
      simpa using (List.mem_filter.mp hy).2
    cases x with
    | mk x1 x2 =>
      cases y with
      | mk y1 y2 =>
        simp only at hx3 hy3 hxy
        subst hxy
        rw [← hx3, ← hy3]
  · exact (List.Nodup.of_map Prod.fst (List.nodup_enum_map_fst arr)).filter _

/-- Claim C4: the recent-errors section of the final report contains at most five
entries, no entry twice, and every entry is the `"<endpointName>: <error>"`
rendering of one of the (at most five) most recent failed results. -/
theorem c4_recent_errors (results : List RequestResult) :
    (recentErrorsOf results).length ≤ 5
  ∧ (recentErrorsOf results).Nodup
  ∧ ∀ e ∈ recentErrorsOf results,
      ∃ r, r ∈ jsSliceLast 5 (results.filter (fun r => !r.success))
        ∧ r.success = false
        ∧ e = jsTemplate r.endpointName ++ ": " ++ jsTemplate r.error := by
  refine ⟨?_, jsDedup_nodup _, ?_⟩
  · unfold recentErrorsOf
    calc (jsDedup _).length
        ≤ _ := jsDedup_length_le _
      _ = (jsSliceLast 5 (results.filter (fun r => !r.success))).length := List.length_map _ _
      _ ≤ 5 := by unfold jsSliceLast; rw [List.length_drop]; omega
  · intro e he
    have hmem := jsDedup_subset _ e he
    rw [List.mem_map] at hmem
    obtain ⟨r, hr, rfl⟩ := hmem
    refine ⟨r, hr, ?_, rfl⟩
    have hfil : r ∈ results.filter (fun r => !r.success) :=
      List.mem_of_mem_drop hr
    simpa using (List.mem_filter.mp hfil).2

/-- Concrete results (two failures with the same message around a success) used
by the C4 witness. -/
def errResults : List RequestResult :=
  [{ timestamp := 0, responseTime := 1, statusCode := 0, success := false,
     error := some "connect ECONNREFUSED", endpointName := some "Checkout",
     endpoint := "https://example.com/api" },
   { timestamp := 1, responseTime := 1, statusCode := 200, success := true,
     endpointName := some "Checkout", endpoint := "https://example.com/api" },
   { timestamp := 2, responseTime := 1, statusCode := 0, success := false,
     error := some "connect ECONNREFUSED", endpointName := some "Checkout",
     endpoint := "https://example.com/api" }]

/-- Witness for C4: the duplicated failure message is surfaced once. -/
theorem c4_recent_errors_witness :
    "Checkout: connect ECONNREFUSED" ∈ recentErrorsOf errResults
  ∧ ∃ r, r ∈ jsSliceLast 5 (errResults.filter (fun r => !r.success))
      ∧ r.success = false
      ∧ "Checkout: connect ECONNREFUSED"
          = jsTemplate r.endpointName ++ ": " ++ jsTemplate r.error :=
  ⟨by decide,
   (c4_recent_errors errResults).2.2 "Checkout: connect ECONNREFUSED" (by decide)⟩

/-- Folding JavaScript addition over real numbers is rational addition. -/
theorem foldl_jsAdd_num (l : List ℚ) : ∀ a : ℚ,
    (l.map JsNum.num).foldl JsNum.add (JsNum.num a) = JsNum.num (l.foldl (· + ·) a) := by
  induction l with
  | nil => intro a; rfl
  | cons x xs ih => intro a; simpa [JsNum.add] using ih (a + x)

/-- Folding JavaScript `Math.min` over real numbers is rational `min`. -/
theorem foldl_jsMin_num (l : List ℚ) : ∀ a : ℚ,
    (l.map JsNum.num).foldl JsNum.min (JsNum.num a) = JsNum.num (l.foldl Min.min a) := by
  induction l with
  | nil => intro a; rfl
  | cons x xs ih => intro a; simpa [JsNum.min] using ih (Min.min a x)

/-- Folding JavaScript `Math.max` over real numbers is rational `max`. -/
theorem foldl_jsMax_num (l : List ℚ) : ∀ a : ℚ,
    (l.map JsNum.num).foldl JsNum.max (JsNum.num a) = JsNum.num (l.foldl Max.max a) := by
  induction l with
  | nil => intro a; rfl
  | cons x xs ih => intro a; simpa [JsNum.max] using ih (Max.max a x)

/-- A nonempty `Math.min` spread, started from the `Infinity` identity. -/
theorem foldl_jsMin_inf (x : ℚ) (xs : List ℚ) :
    ((x :: xs).map JsNum.num).foldl JsNum.min JsNum.inf
      = JsNum.num (xs.foldl Min.min x) := by
  simpa [JsNum.min] using foldl_jsMin_num xs x

/-- A nonempty `Math.max` spread, started from the `-Infinity` identity. -/
theorem foldl_jsMax_negInf (x : ℚ) (xs : List ℚ) :
    ((x :: xs).map JsNum.num).foldl JsNum.max JsNum.negInf
      = JsNum.num (xs.foldl Max.max x) := by
  simpa [JsNum.max] using foldl_jsMax_num xs x

/-- Folding addition from an accumulator is the accumulator plus the sum. -/
theorem foldl_add_eq_sum (l : List ℚ) : ∀ a : ℚ, l.foldl (· + ·) a = a + l.sum := by
  induction l with
  | nil => intro a; simp
  | cons x xs ih => intro a; simp [ih (a + x), add_assoc]

/-- A running minimum never exceeds its starting accumulator. -/
theorem foldl_min_le_init (xs : List ℚ) : ∀ a : ℚ, xs.foldl Min.min a ≤ a := by
  induction xs with
  | nil => intro a; exact le_refl a
  | cons y ys ih => intro a; exact le_trans (ih (Min.min a y)) (min_le_left a y)

/-- A running minimum never exceeds any list element. -/
theorem foldl_min_le_mem (xs : List ℚ) : ∀ (a y : ℚ), y ∈ xs → xs.foldl Min.min a ≤ y := by
  induction xs with
  | nil => intro a y hy; simp at hy
  | cons z zs ih =>
      intro a y hy
      rcases List.mem_cons.mp hy with h1 | h1
      · subst h1
        exact le_trans (foldl_min_le_init zs (Min.min a y)) (min_le_right a y)
      · exact ih (Min.min a z) y h1

/-- A running maximum is at least its starting accumulator. -/
theorem init_le_foldl_max (xs : List ℚ) : ∀ a : ℚ, a ≤ xs.foldl Max.max a := by
  induction xs with
  | nil => intro a; exact le_refl a
  | cons y ys ih => intro a; exact le_trans (le_max_left a y) (ih (Max.max a y))

/-- A running maximum is at least every list element. -/
theorem mem_le_foldl_max (xs : List ℚ) : ∀ (a y : ℚ), y ∈ xs → y ≤ xs.foldl Max.max a := by
  induction xs with
  | nil => intro a y hy; simp at hy
  | cons z zs ih =>
      intro a y hy
      rcases List.mem_cons.mp hy with h1 | h1
      · subst h1
        exact le_trans (le_max_right a y) (init_le_foldl_max zs (Max.max a y))
      · exact ih (Max.max a z) y h1

/-- Lower bound for the sum by the running minimum times the count. -/
theorem card_mul_foldl_min_le_sum (xs : List ℚ) : ∀ a : ℚ,
    ((xs.length + 1 : ℕ) : ℚ) * xs.foldl Min.min a ≤ a + xs.sum := by
  induction xs with
  | nil => intro a; simp
  | cons y ys ih =>
      intro a
      have h1 := ih (Min.min a y)
      have h2 : ys.foldl Min.min (Min.min a y) ≤ Min.min a y :=
        foldl_min_le_init ys (Min.min a y)
      have h3 : Min.min a y ≤ a := min_le_left a y
      have h4 : Min.min a y ≤ y := min_le_right a y
      simp only [List.length_cons, List.foldl_cons, List.sum_cons]
      push_cast
      push_cast at h1
      nlinarith [h1, h2, h3, h4]

/-- Upper bound for the sum by the running maximum times the count. -/
theorem sum_le_card_mul_foldl_max (xs : List ℚ) : ∀ a : ℚ,
    a + xs.sum ≤ ((xs.length + 1 : ℕ) : ℚ) * xs.foldl Max.max a := by
  induction xs with
  | nil => intro a; simp
  | cons y ys ih =>
      intro a
      have h1 := ih (Max.max a y)
      have h2 : Max.max a y ≤ ys.foldl Max.max (Max.max a y) :=
        init_le_foldl_max ys (Max.max a y)
      have h3 : a ≤ Max.max a y := le_max_left a y
      have h4 : y ≤ Max.max a y := le_max_right a y
      simp only [List.length_cons, List.foldl_cons, List.sum_cons]
      push_cast
      push_cast at h1
      nlinarith [h1, h2, h3, h4]

/-- The numeric fields of `calculateStats` on a nonempty store, as exact rationals. -/
theorem calculateStats_cons_fields (r0 : RequestResult) (rs : List RequestResult) :
    (calculateStats (r0 :: rs)).averageResponseTime
      = JsNum.num ((r0.responseTime :: rs.map (fun r => r.responseTime)).sum
          / ((rs.length + 1 : ℕ) : ℚ))
  ∧ (calculateStats (r0 :: rs)).minResponseTime
      = JsNum.num ((rs.map (fun r => r.responseTime)).foldl Min.min r0.responseTime)
  ∧ (calculateStats (r0 :: rs)).maxResponseTime
      = JsNum.num ((rs.map (fun r => r.responseTime)).foldl Max.max r0.responseTime) := by
  have hq : (r0 :: rs).map (fun r => JsNum.num r.responseTime)
      = (r0.responseTime :: rs.map (fun r => r.responseTime)).map JsNum.num := by
    simp [List.map_map]
  refine ⟨?_, ?_, ?_⟩
  · show JsNum.div _ _ = _
    rw [hq, foldl_jsAdd_num (r0.responseTime :: rs.map (fun r => r.responseTime)) 0]
    simp only [List.length_map, List.length_cons]
    have hne : ((rs.length + 1 : ℕ) : ℚ) ≠ 0 := by positivity
    simp only [JsNum.div, if_neg hne]
    rw [foldl_add_eq_sum, zero_add]
  · show List.foldl JsNum.min JsNum.inf _ = _
    rw [hq, foldl_jsMin_inf]
  · show List.foldl JsNum.max JsNum.negInf _ = _
    rw [hq, foldl_jsMax_negInf]

/-- Claim C7: on every nonempty result list, the average response time is the
exact mean of all response times (successes and failures both contribute), and
`min ≤ average ≤ max`, with `min`/`max` bounding every individual result. -/
theorem c7_stats_ordering (results : List RequestResult) (h : results ≠ []) :
    (calculateStats results).averageResponseTime
      = JsNum.num ((results.map (fun r => r.responseTime)).sum / (results.length : ℚ))
  ∧ JsNum.le (calculateStats results).minResponseTime
      (calculateStats results).averageResponseTime = true
  ∧ JsNum.le (calculateStats results).averageResponseTime
      (calculateStats results).maxResponseTime = true
  ∧ (∀ r ∈ results, JsNum.le (calculateStats results).minResponseTime
        (JsNum.num r.responseTime) = true)
  ∧ (∀ r ∈ results, JsNum.le (JsNum.num r.responseTime)
        (calculateStats results).maxResponseTime = true) := by
  cases results with
  | nil => exact absurd rfl h
  | cons r0 rs =>
    obtain ⟨havg, hmin, hmax⟩ := calculateStats_cons_fields r0 rs
    have hlb := card_mul_foldl_min_le_sum (rs.map (fun r => r.responseTime)) r0.responseTime
    have hub := sum_le_card_mul_foldl_max (rs.map (fun r => r.responseTime)) r0.responseTime
    have hlen_pos : (0 : ℚ) < (((rs.map (fun r => r.responseTime)).length + 1 : ℕ) : ℚ) := by
      positivity
    refine ⟨?_, ?_, ?_, ?_, ?_⟩
    · simpa using havg
    · rw [havg, hmin]
      simp only [JsNum.le, decide_eq_true_eq]
      rw [le_div_iff₀ (by positivity), mul_comm]
      simp only [List.sum_cons]
      simpa using hlb
    · rw [havg, hmax]
      simp only [JsNum.le, decide_eq_true_eq]
      rw [div_le_iff₀ (by positivity), mul_comm]
      simp only [List.sum_cons]
      simpa using hub
    · intro r hr
      rw [hmin]
      simp only [JsNum.le, decide_eq_true_eq]
      rcases List.mem_cons.mp hr with h1 | h1
      · rw [h1]
        exact foldl_min_le_init _ _
      · exact foldl_min_le_mem _ _ _ (List.mem_map_of_mem _ h1)
    · intro r hr
      rw [hmax]
      simp only [JsNum.le, decide_eq_true_eq]
      rcases List.mem_cons.mp hr with h1 | h1
      · rw [h1]
        exact init_le_foldl_max _ _
      · exact mem_le_foldl_max _ _ _ (List.mem_map_of_mem _ h1)

/-- Concrete results (latencies 4 ms and 2 ms) used by the C7 witness. -/
def twoResults : List RequestResult :=
  [{ timestamp := 0, responseTime := 4, statusCode := 200, success := true,
     endpointName := some "Checkout", endpoint := "https://example.com/api" },
   { timestamp := 1000, responseTime := 2, statusCode := 200, success := true,
     endpointName := some "Checkout", endpoint := "https://example.com/api" }]

/-- Witness for C7 on two concrete results. -/
theorem c7_stats_ordering_witness :
    twoResults ≠ []
  ∧ JsNum.le (calculateStats twoResults).minResponseTime
      (calculateStats twoResults).averageResponseTime = true
  ∧ JsNum.le (calculateStats twoResults).averageResponseTime
      (calculateStats twoResults).maxResponseTime = true :=
  ⟨by decide, (c7_stats_ordering twoResults (by decide)).2.1,
    (c7_stats_ordering twoResults (by decide)).2.2.1⟩

/-- The implemented chart coincides with the amended sparkline description. -/
theorem generateLatencyChart_eq_amended (l : List ℚ) :
    generateLatencyChart l = amendedSparkline l := by
  simp only [generateLatencyChart, amendedSparkline]
  split_ifs with h0 hr
  · decide
  · decide
  · rfl

/-- Claim C2 (amended): the chart displayed for an endpoint equals the amended
reference algorithm applied to the latencies of the endpoint's most recent 20
results: last 8 values drawn, but normalized (and tested for zero range) against
the minimum and maximum of the whole up-to-20-value input, with left padding and
the all-empty rendering for empty input. -/
theorem c2_chart_matches_amended_spec (endpointResults : List RequestResult) :
    latencyChartOf endpointResults = amendedSparkline (recentLatenciesOf endpointResults) :=
  generateLatencyChart_eq_amended (recentLatenciesOf endpointResults)

/-- A latency window whose spike lies outside the last-8 window. -/
def spikeLatencies : List ℚ := [100, 0, 0, 0, 0, 0, 0, 0, 0]

/-- Claim C2 (counterexample): with nine samples `100, 0, ..., 0` the last-8
window is all zeros, so the spec's algorithm (normalizing against that window's
zero range) renders the flat mid-height row, but the code normalizes against the
whole input's `[0, 100]` range and renders the bottom row instead. -/
theorem c2_counterexample :
    generateLatencyChart spikeLatencies = "▁▁▁▁▁▁▁▁"
  ∧ specSparkline spikeLatencies = "▄▄▄▄▄▄▄▄"
  ∧ ("▁▁▁▁▁▁▁▁" : String) ≠ "▄▄▄▄▄▄▄▄" := by
  refine ⟨?_, ?_, by decide⟩
  · norm_num [generateLatencyChart, spikeLatencies, qMinList, qMaxList, jsSliceLast,
      String.join]
    decide
  · norm_num [specSparkline, spikeLatencies, qMinList, qMaxList, jsSliceLast, String.join]
    decide

/-- Splitting a list that does not contain the separator yields one piece. -/
theorem splitCharList_no_sep (sep : Char) :
    ∀ b : List Char, sep ∉ b → splitCharList sep b = [b] := by
  intro b
  induction b with
  | nil => intro; rfl
  | cons c cs ih =>
      intro h
      have hc : ¬c = sep := fun e => h (e ▸ List.mem_cons_self c cs)
      simp only [splitCharList, if_neg hc]
      rw [ih (fun hm => h (List.mem_cons_of_mem c hm))]

/-- Splitting at the first separator occurrence peels off the prefix. -/
theorem splitCharList_sep_append (sep : Char) :
    ∀ a b : List Char, sep ∉ a →
      splitCharList sep (a ++ sep :: b) = a :: splitCharList sep b := by
  intro a
  induction a with
  | nil => intro b h; simp [splitCharList]
  | cons c cs ih =>
      intro b h
      have hc : ¬c = sep := fun e => h (e ▸ List.mem_cons_self c cs)
      simp only [List.cons_append, splitCharList, if_neg hc]
      rw [List.append_eq, ih b (fun hm => h (List.mem_cons_of_mem c hm))]

/-- A `name|endpoint` key splits back into exactly its two bar-free components. -/
theorem jsSplit_key (name ep : String) (h1 : '|' ∉ name.data) (h2 : '|' ∉ ep.data) :
    jsSplit '|' (name ++ "|" ++ ep) = [name, ep] := by
  unfold jsSplit
  have hdata : (name ++ "|" ++ ep).data = name.data ++ '|' :: ep.data := by
    rw [String.data_append, String.data_append]
    simp
  rw [hdata, splitCharList_sep_append '|' name.data ep.data h1,
    splitCharList_no_sep '|' ep.data h2]
  rfl

/-- One insertion into the endpoint-group map preserves the group invariant:
every member of every group has that group's key, and satisfies any property
carried by all inserted results. -/
theorem insertGroup_inv (P : RequestResult → Prop)
    (acc : List (String × List RequestResult)) (r0 : RequestResult)
    (hacc : ∀ p ∈ acc, ∀ r ∈ p.2, resultKey r = p.1 ∧ P r) (hr0 : P r0) :
    ∀ p ∈ insertGroup acc r0, ∀ r ∈ p.2, resultKey r = p.1 ∧ P r := by
  intro p hp r hr
  simp only [insertGroup] at hp
  by_cases hany : acc.any (fun q => q.1 = resultKey r0)
  · rw [if_pos hany] at hp
    rw [List.mem_map] at hp
    obtain ⟨q, hq, hpq⟩ := hp
    by_cases hkey : q.1 = resultKey r0
    · rw [if_pos hkey] at hpq
      subst hpq
      rcases List.mem_append.mp hr with hmem | hmem
      · exact hacc q hq r hmem
      · have hrr : r = r0 := by simpa using hmem
        subst hrr
        exact ⟨hkey.symm, hr0⟩
    · rw [if_neg hkey] at hpq
      subst hpq
      exact hacc q hq r hr
  · rw [if_neg hany] at hp
    rcases List.mem_append.mp hp with hmem | hmem
    · exact hacc p hmem r hr
    · have hpp : p = (resultKey r0, [r0]) := by simpa using hmem
      subst hpp
      have hrr : r = r0 := by simpa using hr
      subst hrr
      exact ⟨rfl, hr0⟩

/-- The endpoint-group fold preserves the group invariant. -/
theorem groupByEndpoint_inv (P : RequestResult → Prop) :
    ∀ (results : List RequestResult) (acc : List (String × List RequestResult)),
      (∀ p ∈ acc, ∀ r ∈ p.2, resultKey r = p.1 ∧ P r) →
      (∀ r ∈ results, P r) →
      ∀ p ∈ results.foldl insertGroup acc, ∀ r ∈ p.2, resultKey r = p.1 ∧ P r := by
  intro results
  induction results with
  | nil => intro acc hacc _; exact hacc
  | cons r0 rest ih =>
      intro acc hacc hres
      simp only [List.foldl_cons]
      exact ih (insertGroup acc r0)
        (insertGroup_inv P acc r0 hacc (hres r0 (List.mem_cons_self _ _)))
        (fun r hr => hres r (List.mem_cons_of_mem _ hr))

/-- Claim C9 (amended): per-endpoint grouping joins `endpointName` and endpoint
URL with `'|'` and recovers both by splitting on `'|'`; therefore, whenever
every result has a nonempty `endpointName` and neither the names nor the
endpoint URLs contain `'|'`, each group's reported `endpointName` and
`endpoint` equal those of its member results — while a result whose
`endpointName` contains `'|'` (here `"a|b"` with URL `"u"`) is reported with
name `"a"` and URL `"b"`, both different from the actual values. -/
theorem c9_group_key_roundtrip :
    (∀ results : List RequestResult,
      (∀ r ∈ results, ∃ s, r.endpointName = some s ∧ s ≠ ""
          ∧ '|' ∉ s.data ∧ '|' ∉ r.endpoint.data) →
      ∀ p ∈ groupByEndpoint results, ∀ r ∈ p.2,
        (endpointStatsOfGroup p.1 p.2).endpointName = jsOr r.endpointName "Unknown"
      ∧ (endpointStatsOfGroup p.1 p.2).endpoint = r.endpoint)
  ∧ (calculateEndpointStats
        [{ timestamp := 0, responseTime := 1, statusCode := 200, success := true,
           endpointName := some "a|b", endpoint := "u" }]).map
      (fun e => (e.endpointName, e.endpoint)) = [("a", "b")] := by
  constructor
  · intro results hcond p hp r hr
    obtain ⟨hkey, s, hs, hne, hbar1, hbar2⟩ :=
      groupByEndpoint_inv _ results [] (by simp) hcond p hp r hr
    have hsemp : s.isEmpty = false := by
      cases hemp : s.isEmpty
      · rfl
      · exact absurd ((String.isEmpty_iff s).mp hemp) hne
    have hjsor : jsOr r.endpointName "Unknown" = s := by
      rw [hs]
      simp [jsOr, hsemp]
    have hkey2 : p.1 = s ++ "|" ++ r.endpoint := by
      rw [← hkey]
      unfold resultKey
      rw [hjsor]
    have hsplit : jsSplit '|' p.1 = [s, r.endpoint] := by
      rw [hkey2]
      exact jsSplit_key s r.endpoint hbar1 hbar2
    constructor
    · simp only [endpointStatsOfGroup, hsplit]
      rw [hjsor]
      rfl
    · simp only [endpointStatsOfGroup, hsplit]
      rfl
  · decide

/-- A bar-free concrete result used by the C9 witness. -/
def plainResult : RequestResult :=
  { timestamp := 0, responseTime := 1, statusCode := 200, success := true,
    endpointName := some "Checkout", endpoint := "https://example.com/api" }

/-- Witness for C9 on a store with one bar-free result: the group reports the
member's own name and URL. -/
theorem c9_group_key_roundtrip_witness :
    ("Checkout|https://example.com/api", [plainResult]) ∈ groupByEndpoint [plainResult]
  ∧ (endpointStatsOfGroup "Checkout|https://example.com/api" [plainResult]).endpointName
      = jsOr plainResult.endpointName "Unknown"
  ∧ (endpointStatsOfGroup "Checkout|https://example.com/api" [plainResult]).endpoint
      = plainResult.endpoint := by
  have hmem : ("Checkout|https://example.com/api", [plainResult])
      ∈ groupByEndpoint [plainResult] := by decide
  have hcond : ∀ r ∈ [plainResult], ∃ s, r.endpointName = some s ∧ s ≠ ""
      ∧ '|' ∉ s.data ∧ '|' ∉ r.endpoint.data := by
    intro r hr
    rw [List.mem_singleton.mp hr]
    exact ⟨"Checkout", rfl, by decide, by decide, by decide⟩
  have := (c9_group_key_roundtrip.1 [plainResult] hcond
    ("Checkout|https://example.com/api", [plainResult]) hmem plainResult
    (List.mem_singleton.mpr rfl))
  exact ⟨hmem, this.1, this.2⟩

/-- Claim C9 (counterexample): in a result list in which no `endpointName`
contains `'|'` (the name is just `"A"`), a group whose endpoint URL contains
`'|'` is still mis-reported: the URL `"u|v"` comes back as `"u"`, so the
reported endpoint does not equal that of the member result. -/
theorem c9_counterexample :
    '|' ∉ "A".data
  ∧ (calculateEndpointStats
        [{ timestamp := 0, responseTime := 1, statusCode := 200, success := true,
           endpointName := some "A", endpoint := "u|v" }]).map
      (fun e => (e.endpointName, e.endpoint)) = [("A", "u")]
  ∧ ("u" : String) ≠ "u|v" := by
  decide
